import Mathlib

/-!
Verification of the hotel reservation system (src/main.py)

Shallow embedding of the program: the room-availability ledger (a Python
dict from room-type strings to integer counts), the room factory, the
reservation/decorator chain, the pricing strategies, the notifier and the
two orchestration layers (`create_reservation` and the POST handler
`make_reservation`).  Python integers are modelled as `Int`; the float
multipliers 1.5 / 0.8 / 0.9 are modelled as the exact rationals 3/2, 4/5,
9/10 over `ℚ`.  Python exceptions (`ValueError`, `HTTPException`) are
modelled with `Except String`.  `print` side effects of observers are
modelled as the list of emitted (observer, line) pairs.
-/

namespace HotelPattern

/-- A Python dict from strings to ints, as an association list
(first match wins, like dict key identity; insertion order kept). -/
abbrev Ledger := List (String × Int)

/-- `d.get(k, dflt)` of a Python dict. -/
def dictGet (d : Ledger) (k : String) (dflt : Int) : Int :=
  match d.find? (fun p => p.1 == k) with
  | some p => p.2
  | none => dflt

/-- `d[k] = v` of a Python dict: update the entry if the key is present,
append a new entry otherwise. -/
def dictSet : Ledger → String → Int → Ledger
  | [], k, v => [(k, v)]
  | p :: rest, k, v => if p.1 == k then (k, v) :: rest else p :: dictSet rest k v

/-- The initial `available_rooms` dict of `RoomAvailabilityManager`. -/
def initial_rooms : Ledger := [("standard", 10), ("suite", 5), ("deluxe", 3)]

/-- `RoomAvailabilityManager.check_availability`:
`self.available_rooms.get(room_type, 0) > 0`. -/
def check_availability (d : Ledger) (room_type : String) : Bool :=
  dictGet d room_type 0 > 0

/-- `RoomAvailabilityManager.book_room`: re-checks availability; on success
decrements the count by one (`self.available_rooms[room_type] -= 1`) and
returns `true`, else returns `false` leaving the dict unchanged. -/
def book_room (d : Ledger) (room_type : String) : Bool × Ledger :=
  if check_availability d room_type then
    (true, dictSet d room_type (dictGet d room_type 0 - 1))
  else
    (false, d)

/-- The three concrete `Room` subclasses. -/
inductive Room
  | StandardRoom
  | SuiteRoom
  | DeluxeRoom
deriving DecidableEq, Repr

/-- `Room.description` of each subclass. -/
def Room.description : Room → String
  | .StandardRoom => "Habitación Estándar"
  | .SuiteRoom => "Habitación Suite"
  | .DeluxeRoom => "Habitación Deluxe"

/-- `RoomFactory.create_room`: string dispatch to a `Room` variant; any
other string raises `ValueError("Tipo de habitación no disponible.")`. -/
def create_room (room_type : String) : Except String Room :=
  if room_type == "standard" then .ok .StandardRoom
  else if room_type == "suite" then .ok .SuiteRoom
  else if room_type == "deluxe" then .ok .DeluxeRoom
  else .error "Tipo de habitación no disponible."

/-- The reservation decoration chain: a base `Reservation` (holding its
`room` and its `services` list, which `__init__` sets to `[]`), possibly
wrapped by `BreakfastDecorator` / `AirportTransportDecorator` layers. -/
inductive Reservation
  | base (room : Room) (services : List String)
  | breakfast (inner : Reservation)
  | airport_transport (inner : Reservation)
deriving DecidableEq, Repr

/-- `cost()`: the base returns the constant 300000; each decorator adds its
fixed charge to the wrapped cost. -/
def Reservation.cost : Reservation → Int
  | .base _ _ => 300000
  | .breakfast r => r.cost + 50000
  | .airport_transport r => r.cost + 70000

/-- `description()`.  The body of the base is
`self.room.description() + " con " + ", ".join(self.services) if self.services else ""`,
which by Python precedence is the conditional expression
`(room.description() + " con " + join(services)) if services else ""`:
an empty services list yields the empty string.  Each decorator appends its
own suffix to the wrapped description. -/
def Reservation.description : Reservation → String
  | .base room services =>
      if services.isEmpty then ""
      else room.description ++ " con " ++ String.intercalate ", " services
  | .breakfast r => r.description ++ ", desayuno incluido"
  | .airport_transport r => r.description ++ ", transporte al aeropuerto"

/-- The pricing strategy classes. -/
inductive PricingStrategy
  | high_season
  | low_season
  | long_stay
deriving DecidableEq, Repr

/-- `calculate_price` of each strategy: the float factors 1.5 / 0.8 / 0.9
as exact rationals. -/
def PricingStrategy.calculate_price : PricingStrategy → ℚ → ℚ
  | .high_season, base_price => base_price * (3 / 2)
  | .low_season, base_price => base_price * (4 / 5)
  | .long_stay, base_price => base_price * (9 / 10)

/-- One iteration of the service loop in `create_reservation`: wrap the
current reservation if the name matches a known decorator, else leave it. -/
def apply_service (r : Reservation) (service : String) : Reservation :=
  if service == "breakfast" then .breakfast r
  else if service == "airport_transport" then .airport_transport r
  else r

/-- The whole `for service in services:` loop. -/
def apply_services (r : Reservation) (services : List String) : Reservation :=
  services.foldl apply_service r

/-- `ReservationNotifier` / `ReservationNotifier.add_observer`: the
observer list, each `User` observer carrying only its `name`. -/
abbrev Observers := List String

/-- `User.update`: the printed line `"Notificación para {name}: {message}"`. -/
def update_line (name message : String) : String :=
  "Notificación para " ++ name ++ ": " ++ message

/-- `ReservationNotifier.notify_all`: deliver `message` to every observer
in registration order; the result is the list of (observer, printed line)
emissions. -/
def notify_all (observers : Observers) (message : String) : List (String × String) :=
  observers.map (fun name => (name, update_line name message))

/-- The mutable state of the process: the singleton ledger and the shared
notifier observer list of `hotel_system`. -/
structure SystemState where
  available_rooms : Ledger
  observers : Observers
deriving DecidableEq, Repr

/-- Rendering of the final price into the confirmation message.  Python
interpolates the price with a thousands separator (`f"{final_price:,}"`);
digit grouping of the numeral is abstracted away, only the fact that the
price is interpolated is kept. -/
def price_text (q : ℚ) : String :=
  toString q.num ++ (if q.den == 1 then "" else "/" ++ toString q.den)

/-- `HotelReservationSystem.create_reservation`: gate on `book_room`,
build the room, fold the service decorators over the base reservation,
apply the pricing strategy (or pass the cost through), broadcast the
confirmation, and return the reservation with its final price.  Failure of
the gate raises `HTTPException(400, "No hay disponibilidad ...")`,
modelled as `.error`.  Returns (result, new state, emitted notifications). -/
def create_reservation (st : SystemState) (user room_type : String)
    (services : List String) (pricing_strategy : Option PricingStrategy) :
    Except String (Reservation × ℚ) × SystemState × List (String × String) :=
  match book_room st.available_rooms room_type with
  | (true, rooms) =>
      match create_room room_type with
      | .ok room =>
          let reservation := apply_services (.base room []) services
          let final_price : ℚ :=
            match pricing_strategy with
            | some s => s.calculate_price (reservation.cost : ℚ)
            | none => (reservation.cost : ℚ)
          let msg := "Reserva confirmada para " ++ user ++ ": "
            ++ reservation.description ++ ". Precio: " ++ price_text final_price ++ " COP."
          (.ok (reservation, final_price), { st with available_rooms := rooms },
            notify_all st.observers msg)
      | .error e =>
          -- the ValueError would propagate with the room already booked
          (.error e, { st with available_rooms := rooms }, [])
  | (false, _) =>
      (.error ("No hay disponibilidad para el tipo de habitación: " ++ room_type ++ "."),
        st, [])

/-- The pydantic `ReservationRequest` body of `POST /reservations/`. -/
structure ReservationRequest where
  user_name : String
  room_type : String
  services : List String
  pricing_strategy : Option String
deriving DecidableEq, Repr

/-- The strategy-selection chain of `make_reservation`: unknown or missing
names fall through to `None`. -/
def choose_strategy : Option String → Option PricingStrategy
  | some "high_season" => some .high_season
  | some "low_season" => some .low_season
  | some "long_stay" => some .long_stay
  | _ => none

/-- The `POST /reservations/` handler `make_reservation`: create the user,
register it as an observer on the shared notifier (before anything else),
choose the strategy, then call `create_reservation`; on success return the
confirmation message and the final price, on failure re-raise.  Returns
(result, new state, emitted notifications). -/
def make_reservation (st : SystemState) (request : ReservationRequest) :
    Except String (String × ℚ) × SystemState × List (String × String) :=
  let st1 : SystemState := { st with observers := st.observers ++ [request.user_name] }
  let strategy := choose_strategy request.pricing_strategy
  match create_reservation st1 request.user_name request.room_type request.services strategy with
  | (.ok (reservation, final_price), st2, notes) =>
      (.ok ("Reserva confirmada para " ++ request.user_name ++ ". Descripción: "
        ++ reservation.description, final_price), st2, notes)
  | (.error e, st2, notes) => (.error e, st2, notes)

/-- Booking a whole sequence of room types, one `book_room` call after the
other (the ledger component of any sequence of operations: the only
mutation the ledger ever undergoes is `book_room`). -/
def book_seq (d : Ledger) (requests : List String) : Ledger :=
  requests.foldl (fun acc k => (book_room acc k).2) d

/-! ## Ledger lemmas -/

theorem dictGet_nil (q : String) (dflt : Int) : dictGet [] q dflt = dflt := rfl

theorem dictGet_cons (p : String × Int) (rest : Ledger) (q : String) (dflt : Int) :
    dictGet (p :: rest) q dflt = if p.1 = q then p.2 else dictGet rest q dflt := by
  by_cases h : p.1 = q
  · simp [dictGet, List.find?, h]
  · have hb : (p.1 == q) = false := by simp [h]
    simp [dictGet, List.find?, hb, h]

theorem dictGet_dictSet_same (d : Ledger) (k : String) (v dflt : Int) :
    dictGet (dictSet d k v) k dflt = v := by
  induction d with
  | nil => simp [dictSet, dictGet_cons, dictGet_nil]
  | cons p rest ih =>
      by_cases h : p.1 = k
      · simp [dictSet, h, dictGet_cons]
      · simp [dictSet, h, dictGet_cons, ih]

theorem dictGet_dictSet_ne (d : Ledger) (k q : String) (v dflt : Int)
    (hne : q ≠ k) : dictGet (dictSet d k v) q dflt = dictGet d q dflt := by
  induction d with
  | nil => simp [dictSet, dictGet_cons, dictGet_nil, Ne.symm hne]
  | cons p rest ih =>
      by_cases h : p.1 = k
      · subst h
        simp [dictSet, dictGet_cons, Ne.symm hne]
      · simp [dictSet, h, dictGet_cons, ih]

theorem book_room_step_nonneg (d : Ledger) (k : String)
    (hd : ∀ q, 0 ≤ dictGet d q 0) : ∀ q, 0 ≤ dictGet (book_room d k).2 q 0 := by
  intro q
  unfold book_room
  by_cases hc : check_availability d k
  · simp only [hc, if_true]
    by_cases hq : q = k
    · subst hq
      rw [dictGet_dictSet_same]
      have : (0 : Int) < dictGet d q 0 := by
        simpa [check_availability, decide_eq_true_eq] using hc
      omega
    · rw [dictGet_dictSet_ne _ _ _ _ _ hq]
      exact hd q
  · simp only [hc, if_false]
    exact hd q

theorem book_seq_nonneg (d : Ledger) (requests : List String)
    (hd : ∀ q, 0 ≤ dictGet d q 0) : ∀ q, 0 ≤ dictGet (book_seq d requests) q 0 := by
  induction requests generalizing d with
  | nil => exact hd
  | cons k rest ih =>
      have h1 := book_room_step_nonneg d k hd
      simpa [book_seq, List.foldl] using ih (book_room d k).2 h1

theorem dictGet_absent (d : Ledger) (k : String) (dflt : Int)
    (h : ∀ p ∈ d, p.1 ≠ k) : dictGet d k dflt = dflt := by
  induction d with
  | nil => rfl
  | cons p rest ih =>
      rw [dictGet_cons]
      have hp : p.1 ≠ k := h p (List.mem_cons_self p rest)
      simp only [hp, if_false]
      exact ih (fun q hq => h q (List.mem_cons_of_mem p hq))

/-! ## Decoration-chain lemmas -/

/-- The cost delta a single service name contributes when the loop body of
`create_reservation` processes it. -/
def service_charge (s : String) : Int :=
  if s == "breakfast" then 50000
  else if s == "airport_transport" then 70000
  else 0

/-- The description suffix a single service name contributes. -/
def service_suffix (s : String) : String :=
  if s == "breakfast" then ", desayuno incluido"
  else if s == "airport_transport" then ", transporte al aeropuerto"
  else ""

/-- The concatenation of the suffixes of a whole request list, in order. -/
def suffixes_only : List String → String
  | [] => ""
  | s :: rest => service_suffix s ++ suffixes_only rest

theorem apply_service_cost (r : Reservation) (s : String) :
    (apply_service r s).cost = r.cost + service_charge s := by
  by_cases h1 : s = "breakfast"
  · simp [apply_service, service_charge, h1, Reservation.cost]
  · have b1 : (s == "breakfast") = false := by simp [h1]
    by_cases h2 : s = "airport_transport"
    · simp [apply_service, service_charge, b1, h2, Reservation.cost]
    · have b2 : (s == "airport_transport") = false := by simp [h2]
      simp [apply_service, service_charge, b1, b2]

theorem apply_service_description (r : Reservation) (s : String) :
    (apply_service r s).description = r.description ++ service_suffix s := by
  by_cases h1 : s = "breakfast"
  · simp [apply_service, service_suffix, h1, Reservation.description]
  · have b1 : (s == "breakfast") = false := by simp [h1]
    by_cases h2 : s = "airport_transport"
    · simp [apply_service, service_suffix, b1, h2, Reservation.description]
    · have b2 : (s == "airport_transport") = false := by simp [h2]
      simp [apply_service, service_suffix, b1, b2]

theorem apply_services_cons (r : Reservation) (s : String) (rest : List String) :
    apply_services r (s :: rest) = apply_services (apply_service r s) rest := rfl

theorem apply_services_cost (r : Reservation) (services : List String) :
    (apply_services r services).cost
      = r.cost + (services.map service_charge).sum := by
  induction services generalizing r with
  | nil => simp [apply_services]
  | cons s rest ih =>
      rw [apply_services_cons, ih, apply_service_cost]
      simp [List.sum_cons]
      ring

theorem apply_services_description (r : Reservation) (services : List String) :
    (apply_services r services).description
      = r.description ++ suffixes_only services := by
  induction services generalizing r with
  | nil => simp [apply_services, suffixes_only]
  | cons s rest ih =>
      rw [apply_services_cons, ih, apply_service_description, suffixes_only,
        String.append_assoc]

theorem apply_services_append (r : Reservation) (l1 l2 : List String) :
    apply_services r (l1 ++ l2) = apply_services (apply_services r l1) l2 :=
  List.foldl_append apply_service r l1 l2

/-! ## Claim theorems -/

/-- C1: for every room type `k` in the ledger with count `N`: if `N > 0`,
`book_room` returns true and the count for `k` becomes exactly `N - 1`
while the count of every other key is unchanged; if `N = 0`, both
`check_availability` and `book_room` return false and the count stays `0`;
and starting from any ledger with non-negative counts, any sequence of
`book_room` calls leaves every count non-negative. -/
theorem book_room_ledger_invariant (d : Ledger) (k : String) (N : Int)
    (hget : dictGet d k 0 = N) :
    (N > 0 →
      (book_room d k).1 = true ∧
      dictGet (book_room d k).2 k 0 = N - 1 ∧
      (∀ q, q ≠ k → dictGet (book_room d k).2 q 0 = dictGet d q 0)) ∧
    (N = 0 →
      check_availability d k = false ∧
      (book_room d k).1 = false ∧
      dictGet (book_room d k).2 k 0 = 0) ∧
    ((∀ q, 0 ≤ dictGet d q 0) →
      ∀ requests q, 0 ≤ dictGet (book_seq d requests) q 0) := by
  refine ⟨?_, ?_, ?_⟩
  · intro hN
    have hc : check_availability d k = true := by
      simp only [check_availability, hget, decide_eq_true_eq]
      omega
    refine ⟨by simp [book_room, hc], ?_, ?_⟩
    · simp [book_room, hc, hget, dictGet_dictSet_same]
    · intro q hq
      simp [book_room, hc, dictGet_dictSet_ne d k q _ 0 hq]
  · intro hN
    have hc : check_availability d k = false := by
      simp only [check_availability, hget, hN, decide_eq_false_iff_not]
      omega
    exact ⟨hc, by simp [book_room, hc], by simp [book_room, hc, hget, hN]⟩
  · intro hd requests q
    exact book_seq_nonneg d requests hd q

theorem book_room_ledger_invariant_witness :
    (book_room initial_rooms "standard").1 = true ∧
    dictGet (book_room initial_rooms "standard").2 "standard" 0 = 9 ∧
    dictGet (book_room initial_rooms "standard").2 "suite" 0 = 5 := by
  have h := book_room_ledger_invariant initial_rooms "standard" 10 (by decide)
  have h1 := h.1 (by decide)
  exact ⟨h1.1, by simpa using h1.2.1, by
    have := h1.2.2 "suite" (by decide)
    simpa using this⟩

/-- C6: for every room-type string that is not a key of the ledger,
`check_availability` returns false and `book_room` returns false with the
ledger left exactly as it was (no new key, no decrement); both are total
functions, so no error is raised. -/
theorem unknown_room_type_is_safe (d : Ledger) (k : String)
    (h : ∀ p ∈ d, p.1 ≠ k) :
    check_availability d k = false ∧ book_room d k = (false, d) := by
  have hget : dictGet d k 0 = 0 := dictGet_absent d k 0 h
  have hc : check_availability d k = false := by
    simp [check_availability, hget]
  exact ⟨hc, by simp [book_room, hc]⟩

theorem unknown_room_type_is_safe_witness :
    check_availability initial_rooms "penthouse" = false ∧
    book_room initial_rooms "penthouse" = (false, initial_rooms) :=
  unknown_room_type_is_safe initial_rooms "penthouse" (by decide)

/-- C2 counterexample: requesting `["breakfast", "breakfast"]` does NOT
yield the same cost and description as `["breakfast"]`: the loop wraps a
new `BreakfastDecorator` for every occurrence, so the duplicate list costs
400000 (charged twice) against 350000, and its description repeats the
suffix. -/
theorem duplicate_service_not_deduplicated :
    (apply_services (.base .StandardRoom []) ["breakfast", "breakfast"]).cost = 400000 ∧
    (apply_services (.base .StandardRoom []) ["breakfast"]).cost = 350000 ∧
    ¬ ((apply_services (.base .StandardRoom []) ["breakfast", "breakfast"]).cost
          = (apply_services (.base .StandardRoom []) ["breakfast"]).cost ∧
       (apply_services (.base .StandardRoom []) ["breakfast", "breakfast"]).description
          = (apply_services (.base .StandardRoom []) ["breakfast"]).description) := by
  decide

/-- C2 amended: each known service charge is applied once per OCCURRENCE
of its name in the requested list (in list order), not once per distinct
name, for both the cost and the description: the total cost is the base
300000 plus the sum of the charges of all occurrences, the description is
the concatenation of the suffixes of all occurrences in list order, and
one more `"breakfast"` occurrence adds its 50000 and appends its
`", desayuno incluido"` suffix again — so `["breakfast", "breakfast"]`
repeats the suffix twice. -/
theorem service_charge_per_occurrence (room : Room) (services : List String) :
    (apply_services (Reservation.base room []) services).cost
      = 300000 + (services.map service_charge).sum ∧
    (apply_services (Reservation.base room []) services).description
      = suffixes_only services ∧
    (apply_services (Reservation.base room []) ("breakfast" :: services)).cost
      = 50000 + (apply_services (Reservation.base room []) services).cost ∧
    (apply_services (Reservation.base room []) ("breakfast" :: services)).description
      = ", desayuno incluido"
          ++ (apply_services (Reservation.base room []) services).description ∧
    (apply_services (Reservation.base room []) ["breakfast", "breakfast"]).description
      = ", desayuno incluido, desayuno incluido" := by
  refine ⟨?_, ?_, ?_, ?_, by rw [apply_services_description]; rfl⟩
  · rw [apply_services_cost]
    rfl
  · rw [apply_services_description]
    simp [Reservation.description]
  · rw [apply_services_cost, apply_services_cost]
    simp [service_charge]
    ring
  · rw [apply_services_description, apply_services_description]
    simp [Reservation.description, suffixes_only, service_suffix]

/-- C3: `calculate_price` applies exactly one multiplier (high_season ×3/2,
low_season ×4/5, long_stay ×9/10) and `create_reservation` applies it to
the fully-decorated total cost (pass-through when no strategy is given),
never to individual deltas; concretely 350000 with high_season gives
525000, and long_stay on a bare room gives 270000 (also end-to-end through
`create_reservation`). -/
theorem pricing_multiplies_decorated_total :
    (∀ p : ℚ, PricingStrategy.high_season.calculate_price p = p * (3 / 2)) ∧
    (∀ p : ℚ, PricingStrategy.low_season.calculate_price p = p * (4 / 5)) ∧
    (∀ p : ℚ, PricingStrategy.long_stay.calculate_price p = p * (9 / 10)) ∧
    (∀ st u k svs strat r price st2 notes,
      create_reservation st u k svs strat = (.ok (r, price), st2, notes) →
      price = (match strat with
        | some s => s.calculate_price ((r.cost : Int) : ℚ)
        | none => ((r.cost : Int) : ℚ))) ∧
    PricingStrategy.high_season.calculate_price 350000 = 525000 ∧
    PricingStrategy.long_stay.calculate_price 300000 = 270000 ∧
    (create_reservation ⟨initial_rooms, []⟩ "ana" "standard" ["breakfast"]
        (some .high_season)).1
      = .ok (.breakfast (.base .StandardRoom []), 525000) ∧
    (create_reservation ⟨initial_rooms, []⟩ "ana" "standard" []
        (some .long_stay)).1
      = .ok (.base .StandardRoom [], 270000) := by
  have hb : book_room initial_rooms "standard"
      = (true, [("standard", 9), ("suite", 5), ("deluxe", 3)]) := by decide
  refine ⟨fun p => rfl, fun p => rfl, fun p => rfl, ?_, ?_, ?_, ?_, ?_⟩
  · intro st u k svs strat r price st2 notes h
    unfold create_reservation at h
    cases hbr : book_room st.available_rooms k with
    | mk b rooms =>
        rw [hbr] at h
        cases b with
        | false => simp at h
        | true =>
            cases hcr : create_room k with
            | error e => rw [hcr] at h; simp at h
            | ok room =>
                rw [hcr] at h
                simp only [Prod.mk.injEq, Except.ok.injEq] at h
                obtain ⟨⟨hr, hp⟩, _, _⟩ := h
                subst hr
                exact hp.symm
  · simp [PricingStrategy.calculate_price]; norm_num
  · simp [PricingStrategy.calculate_price]; norm_num
  · simp [create_reservation, hb, create_room, apply_services, apply_service,
      Reservation.cost, PricingStrategy.calculate_price]
    norm_num
  · simp [create_reservation, hb, create_room, apply_services,
      Reservation.cost, PricingStrategy.calculate_price]
    norm_num

theorem pricing_multiplies_decorated_total_witness :
    (525000 : ℚ) = PricingStrategy.high_season.calculate_price
      (((Reservation.breakfast (.base .StandardRoom [])).cost : Int) : ℚ) := by
  have h := pricing_multiplies_decorated_total.2.2.2.1
    ⟨initial_rooms, []⟩ "ana" "standard" ["breakfast"] (some .high_season)
    (.breakfast (.base .StandardRoom [])) 525000
    ⟨[("standard", 9), ("suite", 5), ("deluxe", 3)], []⟩ []
  exact h (by
    have hb : book_room initial_rooms "standard"
        = (true, [("standard", 9), ("suite", 5), ("deluxe", 3)]) := by decide
    simp [create_reservation, hb, create_room, apply_services, apply_service,
      Reservation.cost, PricingStrategy.calculate_price, notify_all]
    norm_num)

/-- C4: requesting `["breakfast", "airport_transport"]` wraps the base in
a breakfast layer then an airport-transport layer (request order), and the
resulting reservation costs 300000 + 50000 + 70000 = 420000, its
description being exactly (hence ending with)
", desayuno incluido, transporte al aeropuerto" with the suffixes in the
requested order; also end-to-end through `create_reservation`. -/
theorem decoration_order_preserved :
    apply_services (.base .StandardRoom []) ["breakfast", "airport_transport"]
      = .airport_transport (.breakfast (.base .StandardRoom [])) ∧
    (apply_services (.base .StandardRoom []) ["breakfast", "airport_transport"]).cost
      = 420000 ∧
    (apply_services (.base .StandardRoom []) ["breakfast", "airport_transport"]).description
      = ", desayuno incluido, transporte al aeropuerto" ∧
    (create_reservation ⟨initial_rooms, []⟩ "ana" "standard"
        ["breakfast", "airport_transport"] none).1
      = .ok (.airport_transport (.breakfast (.base .StandardRoom [])), 420000) := by
  have hb : book_room initial_rooms "standard"
      = (true, [("standard", 9), ("suite", 5), ("deluxe", 3)]) := by decide
  refine ⟨by decide, by decide, by decide, ?_⟩
  simp [create_reservation, hb, create_room, apply_services, apply_service,
    Reservation.cost]

/-- C5: whenever the requested room type has no availability (count zero or
absent), `create_reservation` fails with the HTTP-400 error whose message
names that room type, and the system state (ledger and observers) is
exactly what it was before the call, with no notification emitted. -/
theorem no_availability_rejected (st : SystemState) (user room_type : String)
    (services : List String) (strategy : Option PricingStrategy)
    (h : check_availability st.available_rooms room_type = false) :
    create_reservation st user room_type services strategy
      = (.error ("No hay disponibilidad para el tipo de habitación: "
            ++ room_type ++ "."), st, []) := by
  have hb : book_room st.available_rooms room_type = (false, st.available_rooms) := by
    simp [book_room, h]
  simp [create_reservation, hb]

theorem no_availability_rejected_witness :
    create_reservation ⟨[("standard", 0), ("suite", 5), ("deluxe", 3)], ["bob"]⟩
        "ana" "standard" ["breakfast"] none
      = (.error ("No hay disponibilidad para el tipo de habitación: "
            ++ "standard" ++ "."),
         ⟨[("standard", 0), ("suite", 5), ("deluxe", 3)], ["bob"]⟩, []) :=
  no_availability_rejected ⟨[("standard", 0), ("suite", 5), ("deluxe", 3)], ["bob"]⟩
    "ana" "standard" ["breakfast"] none (by decide)

/-- C7: a service name outside {breakfast, airport_transport} inserted
anywhere in the request list is an identity: the resulting reservation is
the very same chain, so its cost and description equal those of the list
without that name (no error is possible: the loop body is total). -/
theorem unknown_service_identity (r : Reservation) (pre post : List String)
    (s : String) (h1 : s ≠ "breakfast") (h2 : s ≠ "airport_transport") :
    apply_services r (pre ++ s :: post) = apply_services r (pre ++ post) ∧
    (apply_services r (pre ++ s :: post)).cost
      = (apply_services r (pre ++ post)).cost ∧
    (apply_services r (pre ++ s :: post)).description
      = (apply_services r (pre ++ post)).description := by
  have b1 : (s == "breakfast") = false := by simp [h1]
  have b2 : (s == "airport_transport") = false := by simp [h2]
  have hid : apply_service (apply_services r pre) s = apply_services r pre := by
    simp [apply_service, b1, b2]
  have key : apply_services r (pre ++ s :: post) = apply_services r (pre ++ post) := by
    rw [apply_services_append, apply_services_append, apply_services_cons, hid]
  exact ⟨key, by rw [key], by rw [key]⟩

theorem unknown_service_identity_witness :
    (apply_services (.base .StandardRoom []) (["breakfast"] ++ "spa" :: ["airport_transport"])).cost
      = (apply_services (.base .StandardRoom []) (["breakfast"] ++ ["airport_transport"])).cost ∧
    (apply_services (.base .StandardRoom []) (["breakfast"] ++ "spa" :: ["airport_transport"])).description
      = (apply_services (.base .StandardRoom []) (["breakfast"] ++ ["airport_transport"])).description :=
  ⟨(unknown_service_identity (.base .StandardRoom []) ["breakfast"] ["airport_transport"]
      "spa" (by decide) (by decide)).2.1,
   (unknown_service_identity (.base .StandardRoom []) ["breakfast"] ["airport_transport"]
      "spa" (by decide) (by decide)).2.2⟩

/-- C8: the undecorated base reservation built by `create_reservation`
(whose `services` field is the `[]` set by `__init__` and never populated)
has `description() = ""` — not the room description, which is never the
empty string — so the description of any decorated reservation consists only of
the appended service suffixes, in order. -/
theorem base_reservation_description_empty (room : Room) (services : List String) :
    (Reservation.base room []).description = "" ∧
    room.description ≠ "" ∧
    (apply_services (Reservation.base room []) services).description
      = suffixes_only services := by
  refine ⟨rfl, ?_, ?_⟩
  · cases room <;> decide
  · rw [apply_services_description]
    simp [Reservation.description]

/-- C9: `create_room` returns the variant with the fixed description for
each of the three known room types, and raises
`ValueError("Tipo de habitación no disponible.")` for every other string —
it fails loudly, never defaulting to some variant. -/
theorem create_room_fixed_set :
    create_room "standard" = .ok .StandardRoom ∧
    Room.StandardRoom.description = "Habitación Estándar" ∧
    create_room "suite" = .ok .SuiteRoom ∧
    Room.SuiteRoom.description = "Habitación Suite" ∧
    create_room "deluxe" = .ok .DeluxeRoom ∧
    Room.DeluxeRoom.description = "Habitación Deluxe" ∧
    ∀ k, k ≠ "standard" → k ≠ "suite" → k ≠ "deluxe" →
      create_room k = .error "Tipo de habitación no disponible." := by
  refine ⟨rfl, rfl, rfl, rfl, rfl, rfl, ?_⟩
  intro k h1 h2 h3
  have b1 : (k == "standard") = false := by simp [h1]
  have b2 : (k == "suite") = false := by simp [h2]
  have b3 : (k == "deluxe") = false := by simp [h3]
  simp [create_room, b1, b2, b3]

theorem create_room_fixed_set_witness :
    create_room "penthouse" = .error "Tipo de habitación no disponible." :=
  create_room_fixed_set.2.2.2.2.2.2 "penthouse" (by decide) (by decide) (by decide)

theorem create_reservation_observers (st : SystemState) (u k : String)
    (svs : List String) (strat : Option PricingStrategy) :
    (create_reservation st u k svs strat).2.1.observers = st.observers := by
  unfold create_reservation
  cases hbr : book_room st.available_rooms k with
  | mk b rooms =>
      cases b with
      | false => simp
      | true =>
          cases hcr : create_room k with
          | error e => simp [hcr]
          | ok room => simp [hcr]

theorem create_reservation_notes (st : SystemState) (u k : String)
    (svs : List String) (strat : Option PricingStrategy) (r : Reservation)
    (price : ℚ) (st2 : SystemState) (notes : List (String × String))
    (h : create_reservation st u k svs strat = (.ok (r, price), st2, notes)) :
    notes.map Prod.fst = st.observers := by
  unfold create_reservation at h
  cases hbr : book_room st.available_rooms k with
  | mk b rooms =>
      rw [hbr] at h
      cases b with
      | false => simp at h
      | true =>
          cases hcr : create_room k with
          | error e => rw [hcr] at h; simp at h
          | ok room =>
              rw [hcr] at h
              simp only [Prod.mk.injEq, Except.ok.injEq] at h
              obtain ⟨_, _, hnotes⟩ := h
              rw [← hnotes]
              simp only [notify_all, List.map_map]
              exact List.map_id st.observers

/-- C10: every call of the `POST /reservations/` handler appends the
requesting user to the observer list of the shared notifier before the
availability gate runs: the list grows by exactly that one name whatever
the outcome (also when the booking is rejected), and a successful booking
broadcasts its confirmation to exactly the users accumulated from every
prior request plus the current one, in registration order. -/
theorem observer_registered_before_gate (st : SystemState)
    (request : ReservationRequest) :
    (make_reservation st request).2.1.observers
      = st.observers ++ [request.user_name] ∧
    ∀ msg price st2 notes,
      make_reservation st request = (.ok (msg, price), st2, notes) →
      notes.map Prod.fst = st.observers ++ [request.user_name] := by
  obtain ⟨rooms0, obs0⟩ := st
  obtain ⟨un, rt, svs, ps⟩ := request
  constructor
  · simp only [make_reservation]
    cases hcr : create_reservation ⟨rooms0, obs0 ++ [un]⟩ un rt svs
        (choose_strategy ps) with
    | mk res rest =>
        have hobs := create_reservation_observers ⟨rooms0, obs0 ++ [un]⟩ un rt svs
          (choose_strategy ps)
        rw [hcr] at hobs
        rcases rest with ⟨stx, notesx⟩
        cases res with
        | ok x =>
            rcases x with ⟨r, p⟩
            simpa using hobs
        | error e => simpa using hobs
  · intro msg price st2 notes h
    simp only [make_reservation] at h
    cases hcr : create_reservation ⟨rooms0, obs0 ++ [un]⟩ un rt svs
        (choose_strategy ps) with
    | mk res rest =>
        rw [hcr] at h
        rcases rest with ⟨stx, notesx⟩
        cases res with
        | error e => simp at h
        | ok x =>
            rcases x with ⟨r, p⟩
            simp only [Prod.mk.injEq, Except.ok.injEq] at h
            obtain ⟨_, _, hnotes⟩ := h
            have hn := create_reservation_notes ⟨rooms0, obs0 ++ [un]⟩ un rt svs
              (choose_strategy ps) r p stx notesx hcr
            rw [← hnotes]
            simpa using hn

theorem observer_registered_before_gate_witness :
    (make_reservation ⟨initial_rooms, ["bob"]⟩ ⟨"ana", "standard", [], none⟩).2.1.observers
      = ["bob"] ++ ["ana"] ∧
    ((make_reservation ⟨[("standard", 0)], ["bob"]⟩
        ⟨"eva", "standard", [], none⟩).2.1.observers = ["bob"] ++ ["eva"]) ∧
    ((make_reservation ⟨initial_rooms, ["bob"]⟩
        ⟨"ana", "standard", [], none⟩).2.2.map Prod.fst = ["bob"] ++ ["ana"]) := by
  have hok := observer_registered_before_gate ⟨initial_rooms, ["bob"]⟩
    ⟨"ana", "standard", [], none⟩
  have hrej := observer_registered_before_gate ⟨[("standard", 0)], ["bob"]⟩
    ⟨"eva", "standard", [], none⟩
  refine ⟨hok.1, hrej.1, ?_⟩
  exact hok.2 _ _ _ _ rfl

end HotelPattern
